import Mathlib

/-!
Verification of the client-observable contract of the kms-go library
(package kms): envelope-encryption request/response semantics, the
cluster-status model, and the wire mapping layer of `kms/response.go`
together with the protobuf message descriptors of `kms/protobuf`.

Go values are embedded as follows: `int`/`int64`/`time.Duration` become
`Int` (Go `int` is 64 bits on all supported platforms), `uint`/`uint64`
become `Nat`, `uint32` becomes `Nat` (values kept below `2 ^ 32` by the
conversions that produce them), `[]byte` becomes `List Nat`, `string`
becomes `String` and Go maps become association lists. Conversions that
truncate in Go (`uint32(x)`) are embedded with an explicit `% 2 ^ 32`.
Fallible Go functions returning `error` become `Except Error`.
-/

/-- Modelled from the spec: the `kms.Error` type (kms/error.go is not part
of the sources here). Per §7 every error carries enough structure for
programmatic handling, "kind + message"; `readResponse` in response.go
constructs it as `Error{http.StatusLengthRequired, "..."}`. -/
structure Error where
  code : Nat
  message : String
deriving DecidableEq, Repr

/-- Failure conditions of the envelope-encryption operations (spec §4.2
failure-condition column). -/
inductive KmsError where
  | notFound
  | authFailure
  | invalidVersion
  | lengthOutOfRange
deriving DecidableEq, Repr

/-- Modelled from the spec: a key ring (server-side state, not part of the
client sources) is "an ordered collection of Key Versions", each with an
integer version number; "version 0 is never a real version — it is a
sentinel meaning the most recently created version in this ring". We keep
the version numbers in creation order. -/
structure KeyRing where
  versions : List Nat
deriving DecidableEq, Repr

/-- Modelled from the spec: key-version addressing (§4.1): version `0`
means "use the ring's latest version"; any positive integer must match an
existing version exactly or the operation fails with a not-found
condition. -/
def KeyRing.resolve (ring : KeyRing) (version : Nat) : Option Nat :=
  if version = 0 then ring.versions.getLast?
  else if version ∈ ring.versions then some version else none

/-- Modelled from the spec: the ciphertext envelope (§3) "carries the key
version used, the raw ciphertext bytes, and (implicitly, not stored but
required at decrypt time) the associated data used at encryption time".
We model an ideal authenticated cipher: the sealed payload and the bound
associated data are recoverable exactly when the right key version and
byte-identical associated data are presented. -/
structure CiphertextEnvelope where
  version : Nat
  payload : List Nat
  boundAD : List Nat
deriving DecidableEq, Repr

/-- Modelled from the spec: the Encrypt operation (§4.2): input key
version (0 = latest), plaintext and associated data; output the version
used and the ciphertext; fails with not-found if the version does not
resolve. -/
def Encrypt (ring : KeyRing) (plaintext associatedData : List Nat) (version : Nat) :
    Except KmsError (Nat × CiphertextEnvelope) :=
  match ring.resolve version with
  | none => .error .notFound
  | some v => .ok (v, ⟨v, plaintext, associatedData⟩)

/-- Modelled from the spec: the Decrypt operation (§4.2): "version 0 is
invalid (must reference the exact version used to encrypt); associated
data mismatch; ciphertext corrupt/truncated; version not found" are the
failure conditions, and per §3 "decrypting with any associated data other
than the exact bytes used at encryption time must fail". -/
def Decrypt (ring : KeyRing) (version : Nat) (c : CiphertextEnvelope)
    (associatedData : List Nat) : Except KmsError (List Nat) :=
  if version = 0 then .error .invalidVersion
  else if version ∉ ring.versions then .error .notFound
  else if c.version ≠ version then .error .authFailure
  else if c.boundAD ≠ associatedData then .error .authFailure
  else .ok c.payload

/-- Modelled from the spec: GenerateKey length normalization (§4.2 and the
protobuf doc of `GenerateKeyRequest.Length`: "At most 1024 (8192 bits).
If not present, defaults to 32 (256 bits)"); an explicitly requested
length of 0 is normalized to the default. -/
def normalizeLength : Option Nat → Nat
  | none => 32
  | some 0 => 32
  | some n => n

/-- The result of GenerateKey: version used, plaintext DEK, ciphertext
DEK (spec §3, "Generated Data Key"). -/
structure GenerateKeyResult where
  Version : Nat
  Plaintext : List Nat
  Ciphertext : CiphertextEnvelope
deriving DecidableEq, Repr

/-- Modelled from the spec: the GenerateKey operation (§4.2): length out
of range is "rejected before any cryptographic work occurs", so the
length check precedes version resolution and key generation; the fresh
randomness is abstracted as an entropy stream. -/
def GenerateKey (ring : KeyRing) (associatedData : List Nat) (version : Nat)
    (length : Option Nat) (entropy : Nat → Nat) : Except KmsError GenerateKeyResult :=
  let L := normalizeLength length
  if 1024 < L then .error .lengthOutOfRange
  else
    match ring.resolve version with
    | none => .error .notFound
    | some v =>
      let dek := (List.range L).map entropy
      .ok ⟨v, dek, ⟨v, dek, associatedData⟩⟩

lemma KeyRing.mem_of_getLast {l : List Nat} {a : Nat} (h : l.getLast? = some a) : a ∈ l := by
  induction l with
  | nil => simp [List.getLast?] at h
  | cons x xs ih =>
    cases hxs : xs with
    | nil =>
      rw [hxs] at h
      simp_all [List.getLast?]
    | cons y ys =>
      rw [hxs] at h ih
      rw [List.getLast?_cons_cons] at h
      exact List.mem_cons_of_mem _ (ih h)

lemma KeyRing.resolve_mem {ring : KeyRing} {version v : Nat}
    (h : ring.resolve version = some v) : v ∈ ring.versions := by
  unfold KeyRing.resolve at h
  split at h
  · exact KeyRing.mem_of_getLast h
  · split at h
    · cases h; assumption
    · cases h

/-- C1: For every plaintext P, associated data A, and key version V of an
existing key, Decrypt applied to the ciphertext produced by
Encrypt(P, A, V), using the version returned by Encrypt and associated
data A, returns exactly P; and for any associated data A2 ≠ A the same
Decrypt call fails with an authentication error and never returns any
plaintext. (Key rings contain only real, i.e. nonzero, versions per §3.) -/
theorem encrypt_decrypt_roundtrip_and_ad_binding
    (ring : KeyRing) (P A A2 : List Nat) (V rv : Nat) (c : CiphertextEnvelope)
    (hpos : 0 ∉ ring.versions)
    (henc : Encrypt ring P A V = .ok (rv, c)) :
    Decrypt ring rv c A = .ok P ∧
    (A2 ≠ A → Decrypt ring rv c A2 = .error .authFailure) := by
  unfold Encrypt at henc
  cases hres : ring.resolve V with
  | none => rw [hres] at henc; cases henc
  | some v =>
    rw [hres] at henc
    cases henc
    have hmem : rv ∈ ring.versions := KeyRing.resolve_mem hres
    have hnz : rv ≠ 0 := fun h => hpos (h ▸ hmem)
    constructor
    · simp [Decrypt, hnz, hmem]
    · intro hne
      simp [Decrypt, hnz, hmem, Ne.symm hne]

/-- Witness for C1 at a concrete key ring, plaintext and associated data. -/
theorem encrypt_decrypt_roundtrip_and_ad_binding_witness :
    Decrypt ⟨[1, 3]⟩ 3 ⟨3, [104, 105], [7]⟩ [7] = .ok [104, 105] ∧
    Decrypt ⟨[1, 3]⟩ 3 ⟨3, [104, 105], [7]⟩ [8] = .error .authFailure := by
  have h := encrypt_decrypt_roundtrip_and_ad_binding ⟨[1, 3]⟩ [104, 105] [7] [8] 0 3
    ⟨3, [104, 105], [7]⟩ (by decide) (by rfl)
  exact ⟨h.1, h.2 (by decide)⟩

/-- C4: For every Decrypt request, version 0 is invalid: Decrypt does not
treat 0 as "latest" but fails, regardless of the key ring, ciphertext or
associated data. -/
theorem decrypt_rejects_version_zero
    (ring : KeyRing) (c : CiphertextEnvelope) (associatedData : List Nat) :
    Decrypt ring 0 c associatedData = .error .invalidVersion := by
  simp [Decrypt]

/-- C3: GenerateKey with length L, 0 < L ≤ 1024, returns a plaintext DEK
of exactly L bytes; an omitted length yields exactly 32 bytes; an
explicit length 0 is normalized to the default (it behaves exactly like
an omitted length); and L > 1024 is rejected — uniformly in the entropy
source and the key ring, i.e. before any key material is generated. -/
theorem generateKey_length_contract :
    (∀ (ring : KeyRing) (ad : List Nat) (V L : Nat) (ent : Nat → Nat)
       (res : GenerateKeyResult), 0 < L → L ≤ 1024 →
       GenerateKey ring ad V (some L) ent = .ok res → res.Plaintext.length = L) ∧
    (∀ (ring : KeyRing) (ad : List Nat) (V : Nat) (ent : Nat → Nat)
       (res : GenerateKeyResult),
       GenerateKey ring ad V none ent = .ok res → res.Plaintext.length = 32) ∧
    (∀ (ring : KeyRing) (ad : List Nat) (V : Nat) (ent : Nat → Nat),
       GenerateKey ring ad V (some 0) ent = GenerateKey ring ad V none ent) ∧
    (∀ (ring : KeyRing) (ad : List Nat) (V L : Nat) (ent : Nat → Nat), 1024 < L →
       GenerateKey ring ad V (some L) ent = .error .lengthOutOfRange) := by
  refine ⟨?_, ?_, ?_, ?_⟩
  · intro ring ad V L ent res hL hle hok
    unfold GenerateKey at hok
    have hnorm : normalizeLength (some L) = L := by
      cases L with
      | zero => cases hL
      | succ n => rfl
    rw [hnorm] at hok
    rw [if_neg (by omega)] at hok
    cases hres : ring.resolve V with
    | none => rw [hres] at hok; cases hok
    | some v => rw [hres] at hok; cases hok; simp
  · intro ring ad V ent res hok
    unfold GenerateKey at hok
    rw [show normalizeLength none = 32 from rfl] at hok
    rw [if_neg (by omega)] at hok
    cases hres : ring.resolve V with
    | none => rw [hres] at hok; cases hok
    | some v => rw [hres] at hok; cases hok; simp
  · intro ring ad V ent
    rfl
  · intro ring ad V L ent hL
    unfold GenerateKey
    have hnorm : normalizeLength (some L) = L := by
      cases L with
      | zero => omega
      | succ n => rfl
    rw [hnorm, if_pos hL]

/-- Witness for C3: a 5-byte request against a ring with latest version 2
yields 5 bytes of key material; length 1025 is rejected. -/
theorem generateKey_length_contract_witness :
    (GenerateKeyResult.mk 2 [0, 1, 2, 3, 4] ⟨2, [0, 1, 2, 3, 4], []⟩).Plaintext.length = 5 ∧
    GenerateKey ⟨[2]⟩ [] 0 (some 1025) id = .error .lengthOutOfRange :=
  ⟨generateKey_length_contract.1 ⟨[2]⟩ [] 0 5 id
      ⟨2, [0, 1, 2, 3, 4], ⟨2, [0, 1, 2, 3, 4], []⟩⟩ (by decide) (by decide) (by rfl),
   generateKey_length_contract.2.2.2 ⟨[2]⟩ [] 0 1025 id (by decide)⟩

/-! ## Wire mapping layer: kms/response.go -/

/-- Go conversion `uint32(x)` applied to a Go `int` (64-bit signed):
truncation to the low 32 bits. -/
def intToUint32 (x : Int) : Nat := (x % 2 ^ 32).toNat

/-- Go conversion `uint32(u)` applied to a Go `uint` (64-bit unsigned). -/
def uintToUint32 (u : Nat) : Nat := u % 2 ^ 32

/-- Modelled from the spec: the wire representation of a duration, the
protobuf well-known `google.protobuf.Duration` used by response.proto for
the `ServerStatusResponse` duration fields (seconds plus nanoseconds,
both carrying the sign, so that "values from an untrusted peer that are
semantically negative (e.g., a duration) must be preserved as such"). -/
structure PBDuration where
  seconds : Int
  nanos : Int
deriving DecidableEq, Repr

/-- Modelled from the spec: the `pb.Duration` helper of kms/protobuf
(not among the sources here) converting a Go `time.Duration` (an `int64`
count of nanoseconds) into the wire duration, splitting with Go's
truncated integer division as `durationpb.New` does. -/
def Duration (d : Int) : PBDuration := ⟨d.tdiv 1000000000, d.tmod 1000000000⟩

/-- Modelled from the spec: `durationpb`'s `AsDuration`, recombining the
wire duration into an `int64` count of nanoseconds. -/
def PBDuration.AsDuration (p : PBDuration) : Int := p.seconds * 1000000000 + p.nanos

lemma Duration_AsDuration (d : Int) : (Duration d).AsDuration = d := by
  simp only [Duration, PBDuration.AsDuration]
  have h := Int.tdiv_add_tmod d 1000000000
  omega

/-- The domain type `kms.NodeStatusResponse` (response.go): status of a
single KMS cluster node. -/
structure NodeStatusResponse where
  Version : String
  APIVersion : String
  Endpoint : String
  Role : String
  Commit : Nat
  Nodes : List (Int × String)
  ID : Int
  LeaderID : Int
  LastHeartbeat : Int
  HeartbeatInterval : Int
  ElectionTimeout : Int
  UpTime : Int
  OS : String
  CPUArch : String
  CPUs : Nat
  UsableCPUs : Nat
  HeapMemInUse : Nat
  StackMemInUse : Nat
deriving DecidableEq, Repr

/-- The Go zero value of `kms.NodeStatusResponse`, as produced by
`new(NodeStatusResponse)`. -/
def NodeStatusResponse.zero : NodeStatusResponse :=
  ⟨"", "", "", "", 0, [], 0, 0, 0, 0, 0, 0, "", "", 0, 0, 0, 0⟩

/-- The generated protobuf type `pb.NodeStatusResponse` (message
`ServerStatusResponse` of response.proto), restricted to the fields the
wire mapping in response.go touches plus `UpTime`, which is on the wire
(field 4 of `ServerStatusResponse`). `uint32` fields and map keys are
`Nat` values below `2 ^ 32`; `sint64 LeaderID` is `Int`. -/
structure PBNodeStatusResponse where
  Version : String
  APIVersion : String
  Addr : String
  UpTime : PBDuration
  Role : String
  Commit : Nat
  Nodes : List (Nat × String)
  ID : Nat
  LeaderID : Int
  LastHeartbeat : PBDuration
  HeartbeatInterval : PBDuration
  ElectionTimeout : PBDuration
  OS : String
  Arch : String
  CPUs : Nat
  UsableCPUs : Nat
  HeapMemInUse : Nat
  StackMemInUse : Nat
deriving DecidableEq, Repr

/-- The protobuf zero value of `pb.NodeStatusResponse` (all fields their
proto3 defaults), as produced by `new(pb.NodeStatusResponse)`. -/
def PBNodeStatusResponse.zero : PBNodeStatusResponse :=
  ⟨"", "", "", ⟨0, 0⟩, "", 0, [], 0, 0, ⟨0, 0⟩, ⟨0, 0⟩, ⟨0, 0⟩, "", "", 0, 0, 0, 0⟩

/-- `(*NodeStatusResponse).MarshalPB` (response.go lines 137-159): field
by field assignment into the out-parameter `v`; note that `v.UpTime` is
never assigned and keeps the value `v` already had. Returns the updated
`v` in place of Go's mutation, paired with the (always nil) error. -/
def NodeStatusResponse.MarshalPB (s : NodeStatusResponse) (v : PBNodeStatusResponse) :
    Except Error PBNodeStatusResponse :=
  .ok { v with
    Version := s.Version
    APIVersion := s.APIVersion
    Addr := s.Endpoint
    Role := s.Role
    Commit := s.Commit
    Nodes := s.Nodes.map (fun p => (intToUint32 p.1, p.2))
    ID := intToUint32 s.ID
    LeaderID := s.LeaderID
    LastHeartbeat := Duration s.LastHeartbeat
    HeartbeatInterval := Duration s.HeartbeatInterval
    ElectionTimeout := Duration s.ElectionTimeout
    OS := s.OS
    Arch := s.CPUArch
    CPUs := uintToUint32 s.CPUs
    UsableCPUs := uintToUint32 s.UsableCPUs
    HeapMemInUse := s.HeapMemInUse
    StackMemInUse := s.StackMemInUse }

/-- `(*NodeStatusResponse).UnmarshalPB` (response.go lines 162-184):
field by field assignment into the receiver `s`; note that `s.UpTime` is
never assigned and keeps the value `s` already had. -/
def NodeStatusResponse.UnmarshalPB (s : NodeStatusResponse) (v : PBNodeStatusResponse) :
    Except Error NodeStatusResponse :=
  .ok { s with
    Version := v.Version
    APIVersion := v.APIVersion
    Endpoint := v.Addr
    Role := v.Role
    Commit := v.Commit
    Nodes := v.Nodes.map (fun p => ((p.1 : Int), p.2))
    ID := (v.ID : Int)
    LeaderID := v.LeaderID
    LastHeartbeat := v.LastHeartbeat.AsDuration
    HeartbeatInterval := v.HeartbeatInterval.AsDuration
    ElectionTimeout := v.ElectionTimeout.AsDuration
    OS := v.OS
    CPUArch := v.Arch
    CPUs := v.CPUs
    UsableCPUs := v.UsableCPUs
    HeapMemInUse := v.HeapMemInUse
    StackMemInUse := v.StackMemInUse }

/-- The wire round trip of a node status: marshal into a fresh protobuf
value, then unmarshal into a fresh domain value, exactly as a client and
a server on the two ends of the wire would. -/
def nodeRoundTrip (s : NodeStatusResponse) : Except Error NodeStatusResponse :=
  (s.MarshalPB PBNodeStatusResponse.zero).bind NodeStatusResponse.zero.UnmarshalPB

lemma intToUint32_roundtrip {x : Int} (h0 : 0 ≤ x) (hlt : x < 2 ^ 32) :
    ((intToUint32 x : Nat) : Int) = x := by
  unfold intToUint32
  rw [Int.emod_eq_of_lt h0 hlt, Int.toNat_of_nonneg h0]

/-- C2: the claim says the MarshalPB/UnmarshalPB round trip of a
NodeStatusResponse preserves every field, including UpTime. It does not:
neither MarshalPB nor UnmarshalPB ever copies the UpTime field, so a node
status with one nanosecond of uptime round-trips to the zero value and
the uptime is lost. -/
theorem nodeStatus_roundtrip_drops_uptime :
    nodeRoundTrip { NodeStatusResponse.zero with UpTime := 1 } = .ok NodeStatusResponse.zero ∧
    ({ NodeStatusResponse.zero with UpTime := 1 } : NodeStatusResponse) ≠
      NodeStatusResponse.zero := by
  constructor
  · rfl
  · decide

/-- Counterexample to C5 as stated: the node-ID narrowing in MarshalPB is
not checked — `uint32(s.ID)` silently truncates, so the out-of-range ID
-1 marshals without error and comes back as 4294967295. -/
theorem narrowing_unchecked_counterexample :
    nodeRoundTrip { NodeStatusResponse.zero with ID := -1 } =
      .ok { NodeStatusResponse.zero with ID := 4294967295 } ∧
    ((-1 : Int) ≠ 4294967295) := by
  constructor
  · rfl
  · decide

/-- C5 (amended): the narrowing conversions in the wire mapping of
NodeStatusResponse are unchecked and truncate modulo 2^32; for values in
range (node ID and Nodes keys in [0, 2^32), CPU counts below 2^32) they
are value-preserving, and semantically negative values (the LeaderID
sentinel and the three duration fields) are preserved as negative for
all inputs — only UpTime, which the mapping never copies, is lost. -/
theorem narrowing_inrange_roundtrip (s : NodeStatusResponse)
    (hID0 : 0 ≤ s.ID) (hID : s.ID < 2 ^ 32)
    (hkeys : ∀ p ∈ s.Nodes, 0 ≤ p.1 ∧ p.1 < 2 ^ 32)
    (hcpu : s.CPUs < 2 ^ 32) (hucpu : s.UsableCPUs < 2 ^ 32) :
    nodeRoundTrip s = .ok { s with UpTime := 0 } := by
  have hid := intToUint32_roundtrip hID0 hID
  have hnodes : (s.Nodes.map (fun p => (intToUint32 p.1, p.2))).map
      (fun p => ((p.1 : Int), p.2)) = s.Nodes := by
    rw [List.map_map]
    conv_rhs => rw [← List.map_id s.Nodes]
    apply List.map_congr_left
    intro p hp
    obtain ⟨h0, hlt⟩ := hkeys p hp
    simp [Function.comp, intToUint32_roundtrip h0 hlt]
  have hcpus : uintToUint32 s.CPUs = s.CPUs := Nat.mod_eq_of_lt hcpu
  have hucpus : uintToUint32 s.UsableCPUs = s.UsableCPUs := Nat.mod_eq_of_lt hucpu
  simp [nodeRoundTrip, NodeStatusResponse.MarshalPB, NodeStatusResponse.UnmarshalPB,
    Except.bind, NodeStatusResponse.zero, PBNodeStatusResponse.zero, hid, hnodes,
    hcpus, hucpus, Duration_AsDuration]

/-- A concrete node status with a negative leader sentinel, negative
heartbeat age and in-range narrow fields. -/
def nodeStatusExample : NodeStatusResponse :=
  ⟨"2023-12-01T16-06-52Z", "v1", "localhost:7373", "Follower", 5,
   [(1, "a.example.com"), (2, "b.example.com")], 1, -1, -1500000000,
   500000000, 1500000000, 0, "linux", "amd64", 8, 4, 1024, 256⟩

/-- Witness for C5 (amended): the example round-trips exactly, negative
LeaderID and durations included. -/
theorem narrowing_inrange_roundtrip_witness :
    nodeRoundTrip nodeStatusExample = .ok { nodeStatusExample with UpTime := 0 } :=
  narrowing_inrange_roundtrip nodeStatusExample (by decide) (by decide)
    (by decide) (by decide) (by decide)

/-! ## Cluster status: kms.StatusResponse -/

/-- The domain type `kms.StatusResponse` (response.go): the cluster view
of one queried node, nodes up keyed by ID with full status, nodes down
keyed by ID with the last-known address. -/
structure StatusResponse where
  NodesUp : List (Int × NodeStatusResponse)
  NodesDown : List (Int × String)
deriving DecidableEq, Repr

/-- The Go zero value of `kms.StatusResponse`. -/
def StatusResponse.zero : StatusResponse := ⟨[], []⟩

/-- The generated protobuf type `pb.StatusResponse` (message
`ClusterStatusResponse` of response.proto): `map<uint32,
ServerStatusResponse> nodes_up` and `map<uint32, string> nodes_down`. -/
structure PBStatusResponse where
  NodesUp : List (Nat × PBNodeStatusResponse)
  NodesDown : List (Nat × String)
deriving DecidableEq, Repr

/-- The protobuf zero value of `pb.StatusResponse`. -/
def PBStatusResponse.zero : PBStatusResponse := ⟨[], []⟩

/-- The NodesUp loop of `(*StatusResponse).MarshalPB` (response.go lines
204-211): marshal each node status into a fresh protobuf value under the
key `uint32(id)`, returning the first error. -/
def marshalNodesUp : List (Int × NodeStatusResponse) →
    Except Error (List (Nat × PBNodeStatusResponse))
  | [] => .ok []
  | p :: rest =>
    match p.2.MarshalPB PBNodeStatusResponse.zero with
    | .error e => .error e
    | .ok stat =>
      match marshalNodesUp rest with
      | .error e => .error e
      | .ok tail => .ok ((intToUint32 p.1, stat) :: tail)

/-- The NodesUp loop of `(*StatusResponse).UnmarshalPB` (response.go
lines 222-229): unmarshal each wire node status into a fresh domain
value under the key `int(id)`, returning the first error. -/
def unmarshalNodesUp : List (Nat × PBNodeStatusResponse) →
    Except Error (List (Int × NodeStatusResponse))
  | [] => .ok []
  | p :: rest =>
    match NodeStatusResponse.zero.UnmarshalPB p.2 with
    | .error e => .error e
    | .ok stat =>
      match unmarshalNodesUp rest with
      | .error e => .error e
      | .ok tail => .ok (((p.1 : Int), stat) :: tail)

/-- `(*StatusResponse).MarshalPB` (response.go lines 203-218). -/
def StatusResponse.MarshalPB (s : StatusResponse) (v : PBStatusResponse) :
    Except Error PBStatusResponse :=
  match marshalNodesUp s.NodesUp with
  | .error e => .error e
  | .ok up =>
    .ok { v with
      NodesUp := up
      NodesDown := s.NodesDown.map (fun p => (intToUint32 p.1, p.2)) }

/-- `(*StatusResponse).UnmarshalPB` (response.go lines 221-236). -/
def StatusResponse.UnmarshalPB (s : StatusResponse) (v : PBStatusResponse) :
    Except Error StatusResponse :=
  match unmarshalNodesUp v.NodesUp with
  | .error e => .error e
  | .ok up =>
    .ok { s with
      NodesUp := up
      NodesDown := v.NodesDown.map (fun p => ((p.1 : Int), p.2)) }

/-- Key sets of two association lists are disjoint: no key of the first
occurs among the keys of the second. -/
def disjointKeys {α β γ : Type} [BEq α] (l₁ : List (α × β)) (l₂ : List (α × γ)) : Bool :=
  l₁.all (fun p => !(l₂.any (fun q => q.1 == p.1)))

lemma marshalNodesUp_isOk (l : List (Int × NodeStatusResponse)) :
    (marshalNodesUp l).isOk = true := by
  induction l with
  | nil => rfl
  | cons p rest ih =>
    simp only [marshalNodesUp, NodeStatusResponse.MarshalPB]
    cases h : marshalNodesUp rest with
    | error e => rw [h] at ih; simp [Except.isOk, Except.toBool] at ih
    | ok tail => rfl

lemma unmarshalNodesUp_keys (l : List (Nat × PBNodeStatusResponse)) :
    (unmarshalNodesUp l).map (fun r => r.map Prod.fst) =
      .ok (l.map (fun p => ((p.1 : Int)))) := by
  induction l with
  | nil => rfl
  | cons p rest ih =>
    simp only [unmarshalNodesUp, NodeStatusResponse.UnmarshalPB]
    cases h : unmarshalNodesUp rest with
    | error e => rw [h] at ih; simp [Except.map] at ih
    | ok tail =>
      rw [h] at ih
      simp [Except.map] at ih ⊢
      exact ih

/-- C7: StatusResponse.UnmarshalPB applied to any wire
ClusterStatusResponse whose nodes_up and nodes_down key sets are disjoint
produces a StatusResponse whose NodesUp and NodesDown key sets are
disjoint — no node ID appears in both maps. -/
theorem statusResponse_unmarshal_preserves_disjoint
    (v : PBStatusResponse) (s : StatusResponse)
    (hd : disjointKeys v.NodesUp v.NodesDown = true)
    (hok : StatusResponse.zero.UnmarshalPB v = .ok s) :
    disjointKeys s.NodesUp s.NodesDown = true := by
  have hkeys := unmarshalNodesUp_keys v.NodesUp
  unfold StatusResponse.UnmarshalPB at hok
  cases h : unmarshalNodesUp v.NodesUp with
  | error e => rw [h] at hkeys; simp [Except.map] at hkeys
  | ok up =>
    rw [h] at hok hkeys
    cases hok
    simp only [Except.map] at hkeys
    have hup : up.map Prod.fst = v.NodesUp.map (fun p => ((p.1 : Int))) := by
      injection hkeys
    simp only [disjointKeys, List.all_eq_true, List.any_eq_true, Bool.not_eq_true',
      Bool.not_eq_true, List.any_eq_false, beq_iff_eq] at hd ⊢
    intro p hp q hq
    have hpfst : p.1 ∈ v.NodesUp.map (fun p => ((p.1 : Int))) := by
      rw [← hup]
      exact List.mem_map_of_mem Prod.fst hp
    obtain ⟨a, ha, hap⟩ := List.mem_map.mp hpfst
    obtain ⟨b, hb, hbq⟩ := List.mem_map.mp hq
    intro hqp
    have : (b.1 : Int) = (a.1 : Int) := by
      rw [← hbq] at hqp
      simp at hqp
      rw [hqp, hap]
    have hba : b.1 = a.1 := by exact_mod_cast this
    exact hd a ha b hb (by simp [hba])

/-- A concrete wire cluster status: node 1 up, node 2 down. -/
def pbStatusExample : PBStatusResponse :=
  ⟨[(1, PBNodeStatusResponse.zero)], [(2, "b.example.com")]⟩

/-- The typed result of unmarshalling `pbStatusExample`. -/
def statusExample : StatusResponse :=
  ⟨[(1, NodeStatusResponse.zero)], [(2, "b.example.com")]⟩

/-- Witness for C7 at the concrete wire cluster status. -/
theorem statusResponse_unmarshal_preserves_disjoint_witness :
    disjointKeys statusExample.NodesUp statusExample.NodesDown = true :=
  statusResponse_unmarshal_preserves_disjoint pbStatusExample statusExample
    (by decide) (by rfl)

/-! ## Encrypt/Decrypt/GenerateKey responses: kms/response.go -/

/-- The domain type `kms.EncryptResponse` (response.go). -/
structure EncryptResponse where
  Version : Int
  Ciphertext : List Nat
deriving DecidableEq, Repr

/-- The generated protobuf type `pb.EncryptResponse` (response.proto):
`uint32 version`, `bytes ciphertext`. -/
structure PBEncryptResponse where
  Version : Nat
  Ciphertext : List Nat
deriving DecidableEq, Repr

/-- `(*EncryptResponse).MarshalPB` (response.go lines 250-254). -/
def EncryptResponse.MarshalPB (r : EncryptResponse) (v : PBEncryptResponse) :
    Except Error PBEncryptResponse :=
  .ok { v with Version := intToUint32 r.Version, Ciphertext := r.Ciphertext }

/-- `(*EncryptResponse).UnmarshalPB` (response.go lines 257-261). -/
def EncryptResponse.UnmarshalPB (r : EncryptResponse) (v : PBEncryptResponse) :
    Except Error EncryptResponse :=
  .ok { r with Version := (v.Version : Int), Ciphertext := v.Ciphertext }

/-- The domain type `kms.DecryptResponse` (response.go). -/
structure DecryptResponse where
  Plaintext : List Nat
deriving DecidableEq, Repr

/-- The generated protobuf type `pb.DecryptResponse` (response.proto). -/
structure PBDecryptResponse where
  Plaintext : List Nat
deriving DecidableEq, Repr

/-- `(*DecryptResponse).MarshalPB` (response.go lines 270-273). -/
def DecryptResponse.MarshalPB (r : DecryptResponse) (v : PBDecryptResponse) :
    Except Error PBDecryptResponse :=
  .ok { v with Plaintext := r.Plaintext }

/-- `(*DecryptResponse).UnmarshalPB` (response.go lines 276-279). -/
def DecryptResponse.UnmarshalPB (r : DecryptResponse) (v : PBDecryptResponse) :
    Except Error DecryptResponse :=
  .ok { r with Plaintext := v.Plaintext }

/-- The domain type `kms.GenerateKeyResponse` (response.go). -/
structure GenerateKeyResponse where
  Version : Int
  Plaintext : List Nat
  Ciphertext : List Nat
deriving DecidableEq, Repr

/-- The generated protobuf type `pb.GenerateKeyResponse`
(response.proto): `uint32 version`, `bytes plaintext`,
`bytes ciphertext`. -/
structure PBGenerateKeyResponse where
  Version : Nat
  Plaintext : List Nat
  Ciphertext : List Nat
deriving DecidableEq, Repr

/-- `(*GenerateKeyResponse).MarshalPB` (response.go lines 300-305). -/
def GenerateKeyResponse.MarshalPB (r : GenerateKeyResponse) (v : PBGenerateKeyResponse) :
    Except Error PBGenerateKeyResponse :=
  .ok { v with
    Version := intToUint32 r.Version
    Plaintext := r.Plaintext
    Ciphertext := r.Ciphertext }

/-- `(*GenerateKeyResponse).UnmarshalPB` (response.go lines 308-313). -/
def GenerateKeyResponse.UnmarshalPB (r : GenerateKeyResponse) (v : PBGenerateKeyResponse) :
    Except Error GenerateKeyResponse :=
  .ok { r with
    Version := (v.Version : Int)
    Plaintext := v.Plaintext
    Ciphertext := v.Ciphertext }

/-- C10: every MarshalPB and UnmarshalPB on NodeStatusResponse,
StatusResponse, EncryptResponse, DecryptResponse and GenerateKeyResponse
returns nil on every input: the conversions are total and never fail, so
the error branch of every caller that checks their result is
unreachable. -/
theorem marshal_unmarshal_never_fail :
    ∀ (s : NodeStatusResponse) (pv : PBNodeStatusResponse)
      (t : StatusResponse) (pt : PBStatusResponse)
      (e : EncryptResponse) (pe : PBEncryptResponse)
      (d : DecryptResponse) (pd : PBDecryptResponse)
      (g : GenerateKeyResponse) (pg : PBGenerateKeyResponse),
      (s.MarshalPB pv).isOk = true ∧ (s.UnmarshalPB pv).isOk = true ∧
      (t.MarshalPB pt).isOk = true ∧ (t.UnmarshalPB pt).isOk = true ∧
      (e.MarshalPB pe).isOk = true ∧ (e.UnmarshalPB pe).isOk = true ∧
      (d.MarshalPB pd).isOk = true ∧ (d.UnmarshalPB pd).isOk = true ∧
      (g.MarshalPB pg).isOk = true ∧ (g.UnmarshalPB pg).isOk = true := by
  intro s pv t pt e pe d pd g pg
  refine ⟨rfl, rfl, ?_, ?_, rfl, rfl, rfl, rfl, rfl, rfl⟩
  · have h := marshalNodesUp_isOk t.NodesUp
    unfold StatusResponse.MarshalPB
    cases hm : marshalNodesUp t.NodesUp with
    | error er => rw [hm] at h; simp [Except.isOk, Except.toBool] at h
    | ok up => rfl
  · have h := unmarshalNodesUp_keys pt.NodesUp
    unfold StatusResponse.UnmarshalPB
    cases hm : unmarshalNodesUp pt.NodesUp with
    | error er => rw [hm] at h; simp [Except.map] at h
    | ok up => rfl

/-! ## Response decoding: readResponse (response.go lines 24-47) -/

/-- The part of Go's `http.Response` that `readResponse` consumes:
`ContentLength` (an `int64`, negative when unknown), the body byte
stream, and the Content-Type header value. -/
structure HTTPResponse where
  ContentLength : Int
  Body : List Nat
  ContentType : String

/-- Modelled from the spec: the content-type value denoting the compact
binary protobuf encoding (`headers.ContentTypeBinary`; the
internal/headers package is not among the sources, the spec only requires
"a content-type indicator on the transport" that decoding branches
on). -/
def ContentTypeBinary : String := "application/x-protobuf"

/-- `readResponse` (response.go lines 24-47): reject a negative content
length with a 411 error before touching the body; read exactly
ContentLength bytes (an I/O error if the body is shorter, as from
`io.ReadFull`); branch on the content type between the binary
(`proto.Unmarshal`) and textual (`protojson.Unmarshal`) decoders — both
external collaborators, passed as parameters — and finally convert the
wire message with `v.UnmarshalPB`. Errors are returned to the caller
immediately; nothing is retried. -/
def readResponse {M T : Type} (binDecode jsonDecode : List Nat → Except Error M)
    (unmarshalPB : M → Except Error T) (r : HTTPResponse) : Except Error T :=
  if r.ContentLength < 0 then .error ⟨411, "request content length is negative"⟩
  else if (r.Body.length : Int) < r.ContentLength then .error ⟨0, "unexpected EOF"⟩
  else
    let buf := r.Body.take r.ContentLength.toNat
    if r.ContentType = ContentTypeBinary then
      match binDecode buf with
      | .error e => .error e
      | .ok m => unmarshalPB m
    else
      match jsonDecode buf with
      | .error e => .error e
      | .ok m => unmarshalPB m

/-- C6: for every response message value m, decoding the binary encoding
of m and decoding the textual (JSON) encoding of m through readResponse
produce identical typed results: the observable output does not depend on
which of the two encodings carried it. -/
theorem readResponse_encoding_transparent {M T : Type}
    (binDecode jsonDecode : List Nat → Except Error M)
    (unmarshalPB : M → Except Error T) (m : M) (b1 b2 : List Nat) (ct : String)
    (hct : ct ≠ ContentTypeBinary)
    (hbd : binDecode b1 = .ok m) (hjd : jsonDecode b2 = .ok m) :
    readResponse binDecode jsonDecode unmarshalPB ⟨(b1.length : Int), b1, ContentTypeBinary⟩ =
    readResponse binDecode jsonDecode unmarshalPB ⟨(b2.length : Int), b2, ct⟩ := by
  unfold readResponse
  rw [if_neg (not_lt.mpr (Int.natCast_nonneg b1.length)),
    if_neg (not_lt.mpr (Int.natCast_nonneg b2.length))]
  simp only [lt_irrefl, if_false, Int.toNat_ofNat, List.take_length]
  rw [if_neg hct]
  simp only [if_true]
  rw [hbd, hjd]

/-- Binary and textual decoders for the witnesses: a codec pair that
decodes any buffer to the message 0, and one that always fails. -/
def okNatDecode : List Nat → Except Error Nat := fun _x => .ok 0

/-- A decoder that rejects every buffer, standing in for a decode
failure. -/
def errNatDecode : List Nat → Except Error Nat := fun _x => .error ⟨7, "invalid wire data"⟩

/-- A trivial UnmarshalPB stand-in for the witnesses. -/
def okNatUnmarshal : Nat → Except Error Nat := fun n => .ok n

/-- Witness for C6: the same message carried once as binary and once as
JSON yields the same typed result. -/
theorem readResponse_encoding_transparent_witness :
    readResponse okNatDecode okNatDecode okNatUnmarshal ⟨0, [], ContentTypeBinary⟩ =
    readResponse okNatDecode okNatDecode okNatUnmarshal ⟨0, [], "application/json"⟩ :=
  readResponse_encoding_transparent okNatDecode okNatDecode okNatUnmarshal 0 [] []
    "application/json" (by decide) rfl rfl

/-- C8: a negative content length makes readResponse return the
malformed-input error of kind 411 (Length Required) synchronously —
uniformly in the body and both decoders, i.e. before reading any body
bytes and before attempting any decoding; and a decode failure of the
selected decoder is returned to the caller as is, before any
UnmarshalPB work and with no internal retry. -/
theorem readResponse_malformed_input_fail_fast {M T : Type}
    (binDecode jsonDecode : List Nat → Except Error M)
    (unmarshalPB : M → Except Error T)
    (cl : Int) (b : List Nat) (ct : String) (e : Error) :
    (cl < 0 →
      readResponse binDecode jsonDecode unmarshalPB ⟨cl, b, ct⟩ =
        .error ⟨411, "request content length is negative"⟩) ∧
    (0 ≤ cl → cl ≤ (b.length : Int) → ct = ContentTypeBinary →
      binDecode (b.take cl.toNat) = .error e →
      readResponse binDecode jsonDecode unmarshalPB ⟨cl, b, ct⟩ = .error e) ∧
    (0 ≤ cl → cl ≤ (b.length : Int) → ct ≠ ContentTypeBinary →
      jsonDecode (b.take cl.toNat) = .error e →
      readResponse binDecode jsonDecode unmarshalPB ⟨cl, b, ct⟩ = .error e) := by
  refine ⟨?_, ?_, ?_⟩
  · intro hneg
    unfold readResponse
    rw [if_pos hneg]
  · intro h0 hle hctb hdec
    unfold readResponse
    rw [if_neg (not_lt.mpr h0), if_neg (not_lt.mpr hle)]
    simp only
    rw [if_pos hctb, hdec]
  · intro h0 hle hctb hdec
    unfold readResponse
    rw [if_neg (not_lt.mpr h0), if_neg (not_lt.mpr hle)]
    simp only
    rw [if_neg hctb, hdec]

/-- Witness for C8: content length -1 yields the 411 error; a failing
binary decoder propagates its error unchanged. -/
theorem readResponse_malformed_input_fail_fast_witness :
    readResponse okNatDecode okNatDecode okNatUnmarshal ⟨-1, [5], "application/json"⟩ =
      .error ⟨411, "request content length is negative"⟩ ∧
    readResponse errNatDecode okNatDecode okNatUnmarshal ⟨0, [], ContentTypeBinary⟩ =
      .error ⟨7, "invalid wire data"⟩ :=
  ⟨(readResponse_malformed_input_fail_fast okNatDecode okNatDecode okNatUnmarshal
      (-1) [5] "application/json" ⟨7, "invalid wire data"⟩).1 (by decide),
   (readResponse_malformed_input_fail_fast errNatDecode okNatDecode okNatUnmarshal
      0 [] ContentTypeBinary ⟨7, "invalid wire data"⟩).2.1 (by decide) (by decide) rfl rfl⟩

/-! ## Textual field labels: kms/protobuf/request.proto -/

/-- The field-name-to-JSON-label table of message `EditClusterRequest`
(request.proto lines 54-61; the generated code in the sources carries the
same `json=remove` tag on RemoveIDs). -/
def EditClusterRequest.jsonLabels : List (String × String) :=
  [("Host", "host"), ("RemoveIDs", "remove")]

/-- The field-name-to-JSON-label table of message `EncryptRequest`
(request.proto lines 148-165). -/
def EncryptRequest.jsonLabels : List (String × String) :=
  [("Name", "name"), ("Version", "version"), ("Plaintext", "plaintext"),
   ("AssociatedData", "associated_data")]

/-- The field-name-to-JSON-label table of message `DecryptRequest`
(request.proto lines 201-214). -/
def DecryptRequest.jsonLabels : List (String × String) :=
  [("Name", "name"), ("Version", "version"), ("Ciphertext", "ciphertext"),
   ("AssociatedData", "associated_data")]

/-- The field-name-to-JSON-label table of message `GenerateKeyRequest`
(request.proto lines 167-186). -/
def GenerateKeyRequest.jsonLabels : List (String × String) :=
  [("Name", "name"), ("Version", "version"), ("AssociatedData", "associated_data"),
   ("Length", "length")]

/-- C9: in the textual encoding the field labels are fixed lowercase
snake_case names independent of the in-memory field names: RemoveIDs of
EditClusterRequest serializes under the label "remove", AssociatedData of
Encrypt/Decrypt/GenerateKey requests under "associated_data", and every
label in these tables is built from lowercase letters and underscores
only. -/
theorem json_labels_fixed_snake_case :
    EditClusterRequest.jsonLabels.lookup "RemoveIDs" = some "remove" ∧
    EncryptRequest.jsonLabels.lookup "AssociatedData" = some "associated_data" ∧
    DecryptRequest.jsonLabels.lookup "AssociatedData" = some "associated_data" ∧
    GenerateKeyRequest.jsonLabels.lookup "AssociatedData" = some "associated_data" ∧
    (EditClusterRequest.jsonLabels ++ EncryptRequest.jsonLabels ++
      DecryptRequest.jsonLabels ++ GenerateKeyRequest.jsonLabels).all
        (fun p => p.2.toList.all (fun c => c.isLower || c == '_')) = true := by
  refine ⟨rfl, rfl, rfl, rfl, ?_⟩
  decide
